import Mathlib

/-!
Verification of the voxl runtime core: the Application state machine of
src/main.rs, the Renderer surface lifecycle, the CameraController motion
accumulator, and the voxel/chunk entity model of src/ecs.rs.

Machine integers: voxel identifiers are opaque 64-bit values on which the
code performs no arithmetic, so they are embedded as Nat; pixel sizes are
embedded as Nat; times are instants on a monotonic clock, embedded as Nat;
mouse deltas are embedded as Int (the code only ever adds them).
-/

namespace Voxl

/-- Outcome of Renderer.render: success or one of the five wgpu SurfaceError
classes matched by window_event in src/main.rs. -/
inductive RenderResult
  | ok
  | lost
  | outdated
  | outOfMemory
  | timeout
  | other
deriving DecidableEq, Repr

/-- Physical pixel size (winit PhysicalSize): width and height. -/
structure PSize where
  width : Nat
  height : Nat
deriving DecidableEq, Repr

/-- Modelled from the spec: the CameraController lives in the gfx module that
is absent from src/ (src/main.rs only calls its process_mouse). Per spec
section 3 and 4.3 it owns two accumulators (horizontal, vertical) of pending
orientation delta. -/
structure CameraController where
  rotate_horizontal : Int
  rotate_vertical : Int
deriving DecidableEq, Repr

/-- A camera controller with both accumulators zeroed. -/
def CameraController.init : CameraController :=
  { rotate_horizontal := 0, rotate_vertical := 0 }

/-- Modelled from the spec: process_mouse (called from device_event in
src/main.rs; body absent from src/) accumulates raw pointer motion additively
into the pending-delta state (spec section 4.3). -/
def CameraController.process_mouse (c : CameraController) (dx dy : Int) :
    CameraController :=
  { rotate_horizontal := c.rotate_horizontal + dx,
    rotate_vertical := c.rotate_vertical + dy }

/-- Modelled from the spec: consumption of the pending deltas by the update
step yields the accumulated delta and zeroes both accumulators (spec
sections 4.2 and 4.3). -/
def CameraController.consume (c : CameraController) :
    (Int × Int) × CameraController :=
  ((c.rotate_horizontal, c.rotate_vertical), CameraController.init)

/-- Folds a sequence of process_mouse calls over a controller. -/
def CameraController.processAll (c : CameraController)
    (ds : List (Int × Int)) : CameraController :=
  ds.foldl (fun c d => c.process_mouse d.1 d.2) c

/-- Observable side effects of the Application and Renderer operations:
a resize call with its arguments, an actual surface reconfiguration, a
render call being issued, an exit request to the event loop, and a warning
log record. -/
inductive Action
  | resizeCall (w h : Nat)
  | reconfigure (w h : Nat)
  | renderCall
  | exitLoop
  | warn
deriving DecidableEq, Repr

/-- The Renderer. The struct in src/renderer.rs holds the GPU device, queue
and surface, which are opaque external handles; the fields used by
src/main.rs (size, the camera controller, and the surface configuration
mutated by resize) live in the gfx module absent from src/ and are modelled
from the spec (section 3): size is the last-known drawable size and
surfaceConfigured is the drawable size the presentation surface is currently
configured for (none before the first configuration). consumedDelta and
lastDt record what the last update step consumed, making the update
observable. -/
structure Renderer where
  size : PSize
  surfaceConfigured : Option PSize
  camera_controller : CameraController
  consumedDelta : Int × Int
  lastDt : Nat
deriving DecidableEq, Repr

/-- Modelled from the spec: Renderer.resize (gfx module absent from src/,
spec section 4.2) always stores the new size, is total (never fails), and
reconfigures the presentation surface only when both dimensions are
non-zero; with a zero dimension the surface configuration is left untouched. -/
def Renderer.resize (r : Renderer) (w h : Nat) : Renderer × List Action :=
  if w = 0 ∨ h = 0 then
    ({ r with size := ⟨w, h⟩ }, [Action.resizeCall w h])
  else
    ({ r with size := ⟨w, h⟩, surfaceConfigured := some ⟨w, h⟩ },
      [Action.resizeCall w h, Action.reconfigure w h])

/-- Modelled from the spec: Renderer.update advances time-dependent render
state; it consumes the camera controller's pending deltas, clearing them,
and never fails (spec sections 4.2 and 4.3). -/
def Renderer.update (r : Renderer) (dt : Nat) : Renderer :=
  let p := r.camera_controller.consume
  { r with camera_controller := p.2, consumedDelta := p.1, lastDt := dt }

/-- The App struct of src/main.rs: an optional Renderer (present only once
the window has been realized) and the last-render timestamp. exiting records
that ActiveEventLoop.exit has been requested, after which the event loop
stops delivering events. -/
structure App where
  renderer : Option Renderer
  last_render_time : Nat
  exiting : Bool
deriving DecidableEq, Repr

/-- App::new in src/main.rs: no renderer yet, last_render_time initialized
to the current instant, taken here as a parameter. -/
def App.new (now : Nat) : App :=
  { renderer := none, last_render_time := now, exiting := false }

/-- The spec's Application modes (section 4.1): Uninitialized (no Renderer),
Active (Renderer present), Exiting (terminal). -/
inductive Mode
  | uninitialized
  | active
  | exiting
deriving DecidableEq, Repr

/-- The mode the App is in: exiting dominates, otherwise it is determined by
the presence of the Renderer. -/
def App.mode (a : App) : Mode :=
  if a.exiting then Mode.exiting
  else
    match a.renderer with
    | some _ => Mode.active
    | none => Mode.uninitialized

/-- Physical key codes as discriminated by window_event in src/main.rs:
Escape is the only code with a bound action. -/
inductive Key
  | escape
  | otherKey (code : Nat)
deriving DecidableEq, Repr

/-- Window events handled by window_event in src/main.rs. -/
inductive WEvent
  | closeRequested
  | resized (w h : Nat)
  | redrawRequested
  | key (code : Key) (pressed : Bool)
deriving DecidableEq, Repr

/-- window_event from src/main.rs. If no renderer is installed the handler
returns immediately, before the event is even inspected. Otherwise:
CloseRequested exits the loop; Resized forwards the new size to
Renderer.resize; RedrawRequested computes dt from the last-render timestamp,
records now as the new timestamp, runs Renderer.update, then dispatches on
the render outcome (Lost and Outdated resize with the renderer's stored
size; OutOfMemory exits; Timeout and Other only log a warning); an Escape
key press exits the loop. now is the current instant and rres the outcome
the GPU reports if a render is issued. -/
def App.window_event (a : App) (now : Nat) (rres : RenderResult)
    (ev : WEvent) : App × List Action :=
  match a.renderer with
  | none => (a, [])
  | some state =>
    match ev with
    | WEvent.closeRequested => ({ a with exiting := true }, [Action.exitLoop])
    | WEvent.resized w h =>
      let p := state.resize w h
      ({ a with renderer := some p.1 }, p.2)
    | WEvent.redrawRequested =>
      let dt := now - a.last_render_time
      let st1 := state.update dt
      let a1 : App := { a with last_render_time := now, renderer := some st1 }
      match rres with
      | RenderResult.ok => (a1, [Action.renderCall])
      | RenderResult.lost =>
        let p := st1.resize st1.size.width st1.size.height
        ({ a1 with renderer := some p.1 }, Action.renderCall :: p.2)
      | RenderResult.outdated =>
        let p := st1.resize st1.size.width st1.size.height
        ({ a1 with renderer := some p.1 }, Action.renderCall :: p.2)
      | RenderResult.outOfMemory =>
        ({ a1 with exiting := true }, [Action.renderCall, Action.exitLoop])
      | RenderResult.timeout => (a1, [Action.renderCall, Action.warn])
      | RenderResult.other => (a1, [Action.renderCall, Action.warn])
    | WEvent.key k pressed =>
      match k, pressed with
      | Key.escape, true => ({ a with exiting := true }, [Action.exitLoop])
      | _, _ => (a, [])

/-- device_event from src/main.rs: mouse motion is forwarded to the camera
controller's process_mouse; a no-op when no renderer is installed. -/
def App.device_event (a : App) (dx dy : Int) : App :=
  match a.renderer with
  | none => a
  | some state =>
    let st2 : Renderer :=
      { state with
        camera_controller := state.camera_controller.process_mouse dx dy }
    { a with renderer := some st2 }

/-- One platform-delivered event together with the instant it arrives and
the render outcome the GPU would report if a render were issued then. -/
structure EventIn where
  now : Nat
  rres : RenderResult
  ev : WEvent
deriving DecidableEq, Repr

/-- The winit event loop driving the App: dispatches each event to
window_event in order, and once an exit has been requested delivers no
further events. Returns the final App and the concatenated action trace. -/
def App.runEvents (a : App) (evs : List EventIn) : App × List Action :=
  match evs with
  | [] => (a, [])
  | e :: rest =>
    if a.exiting then (a, [])
    else
      let p := a.window_event e.now e.rres e.ev
      let q := p.1.runEvents rest
      (q.1, p.2 ++ q.2)

/-- Window operations performed during resumed in src/main.rs. -/
inductive WinOp
  | cursorGrabConfined
  | cursorVisible (v : Bool)
deriving DecidableEq, Repr

/-- resumed from src/main.rs: after creating the window it requests the
Confined cursor grab mode; the expect on the result aborts startup if the
platform rejects the grab; only on success does execution reach
set_cursor_visible(false). grabOk is the platform's answer to the grab
request; the result is the list of window operations performed and whether
startup survives to install the renderer. -/
def resumed (grabOk : Bool) : List WinOp × Bool :=
  if grabOk then
    ([WinOp.cursorGrabConfined, WinOp.cursorVisible false], true)
  else
    ([WinOp.cursorGrabConfined], false)

/-- A Voxel: the opaque 64-bit identifier (the Voxel payload of Entity in
src/ecs.rs). -/
structure Voxel where
  id : Nat
deriving DecidableEq, Repr

/-- Entity from src/ecs.rs: either a single voxel identified by an opaque id
or a chunk holding an ordered sequence of Voxel values. By this type a chunk
can hold only Voxel values, never another Entity. -/
inductive Entity
  | voxel (id : Nat)
  | chunk (voxels : List Voxel)
deriving DecidableEq, Repr

/-- World from src/ecs.rs: an ordered collection of entities. -/
structure World where
  entities : List Entity
deriving DecidableEq, Repr

/-- The world with no entities. -/
def World.empty : World := { entities := [] }

/-- Modelled from the spec: spawn_voxel (spec section 4.4; no body in src/)
appends a Voxel entity. -/
def World.spawn_voxel (w : World) (id : Nat) : World :=
  { entities := w.entities ++ [Entity.voxel id] }

/-- Modelled from the spec: spawn_chunk (spec sections 3 and 4.4; no body in
src/) appends a Chunk entity; constructing a chunk from an empty sequence is
a caller error and is rejected. -/
def World.spawn_chunk (w : World) (vs : List Voxel) : Option World :=
  if vs.isEmpty then none
  else some { entities := w.entities ++ [Entity.chunk vs] }

/-- Modelled from the spec: iter (spec section 4.4; no body in src/)
produces the entities in insertion order. As a pure list it is finite and
restartable. -/
def World.iter (w : World) : List Entity := w.entities

/-- The operations a caller can perform on a World. -/
inductive WorldOp
  | opVoxel (id : Nat)
  | opChunk (vs : List Voxel)
deriving DecidableEq, Repr

/-- Applies one operation; a rejected spawn_chunk leaves the world
unchanged. -/
def World.applyOp (w : World) (op : WorldOp) : World :=
  match op with
  | WorldOp.opVoxel id => w.spawn_voxel id
  | WorldOp.opChunk vs => (w.spawn_chunk vs).getD w

/-- Applies a sequence of operations in order. -/
def World.applyOps (w : World) (ops : List WorldOp) : World :=
  ops.foldl World.applyOp w

/-- The general shape entities could have had if nesting were allowed:
voxels or arbitrarily nested chunks. Entity.toTree embeds the code's type
into it so that the flat-nesting invariant becomes a statable property. -/
inductive ETree
  | voxel (id : Nat)
  | chunk (children : List ETree)
deriving Repr

/-- Embeds an Entity into the general tree shape. -/
def Entity.toTree : Entity → ETree
  | Entity.voxel id => ETree.voxel id
  | Entity.chunk vs => ETree.chunk (vs.map fun v => ETree.voxel v.id)

/-- True when the tree is not a chunk at all. -/
def ETree.chunkFree : ETree → Bool
  | ETree.voxel _ => true
  | ETree.chunk _ => false

/-- True when no chunk sits directly inside a chunk: nesting depth at most
one. -/
def ETree.flatDepth : ETree → Bool
  | ETree.voxel _ => true
  | ETree.chunk cs => cs.all ETree.chunkFree

/-- True when the entity is not a chunk constructed from an empty
sequence. -/
def Entity.nonEmptyChunk : Entity → Bool
  | Entity.voxel _ => true
  | Entity.chunk vs => !vs.isEmpty

/-- The well-formedness invariant on worlds: every held chunk is non-empty
and flat (contains only voxels, never a chunk). -/
def World.wellFormed (w : World) : Bool :=
  w.entities.all fun e => e.nonEmptyChunk && (Entity.toTree e).flatDepth

/-- A concrete renderer used to instantiate universally quantified
theorems. -/
def rW : Renderer :=
  { size := ⟨4, 3⟩, surfaceConfigured := some ⟨4, 3⟩,
    camera_controller := CameraController.init,
    consumedDelta := (0, 0), lastDt := 0 }

/-- A concrete active App used to instantiate universally quantified
theorems. -/
def appW : App :=
  { renderer := some rW, last_render_time := 2, exiting := false }

lemma resize_size (r : Renderer) (w h : Nat) :
    ((r.resize w h).1).size = ⟨w, h⟩ := by
  unfold Renderer.resize
  split <;> rfl

lemma resize_lastDt (r : Renderer) (w h : Nat) :
    ((r.resize w h).1).lastDt = r.lastDt := by
  unfold Renderer.resize
  split <;> rfl

lemma resizeCall_mem (r : Renderer) (w h : Nat) :
    Action.resizeCall w h ∈ (r.resize w h).2 := by
  unfold Renderer.resize
  split <;> simp

lemma update_size (r : Renderer) (dt : Nat) : (r.update dt).size = r.size :=
  rfl

lemma update_lastDt (r : Renderer) (dt : Nat) : (r.update dt).lastDt = dt :=
  rfl

lemma processAll_accum (ds : List (Int × Int)) (c : CameraController) :
    (c.processAll ds).rotate_horizontal =
      c.rotate_horizontal + (ds.map Prod.fst).sum ∧
    (c.processAll ds).rotate_vertical =
      c.rotate_vertical + (ds.map Prod.snd).sum := by
  induction ds generalizing c with
  | nil => simp [CameraController.processAll]
  | cons d ds ih =>
    obtain ⟨h1, h2⟩ := ih (c.process_mouse d.1 d.2)
    simp only [CameraController.processAll, List.foldl_cons, List.map_cons,
      List.sum_cons] at h1 h2 ⊢
    rw [h1, h2]
    simp only [CameraController.process_mouse]
    constructor <;> ring

/-- Claim C6: motion accumulation is additive and order-independent within
one frame: the delta consumed after any sequence of process_mouse calls
equals the delta consumed after one call with the componentwise sums, and
consumption zeroes both accumulators; in particular (1,2) then (3,-1)
consumes the same delta as one call (4,1). -/
theorem C6_motion_additive :
    (∀ (c : CameraController) (ds : List (Int × Int)),
      ((c.processAll ds).consume).1 =
        ((c.process_mouse (ds.map Prod.fst).sum
          (ds.map Prod.snd).sum).consume).1) ∧
    (∀ c : CameraController, (c.consume).2 = CameraController.init) ∧
    ((((CameraController.init.process_mouse 1 2).process_mouse 3
        (-1)).consume) =
      ((CameraController.init.process_mouse 4 1).consume)) := by
  refine ⟨?_, fun c => rfl, by decide⟩
  intro c ds
  have h := processAll_accum ds c
  simp only [CameraController.consume, CameraController.process_mouse]
  exact Prod.ext h.1 h.2

lemma map_voxel_chunkFree (vs : List Voxel) :
    ((vs.map fun v => ETree.voxel v.id).all ETree.chunkFree) = true := by
  simp only [List.all_eq_true]
  intro x hx
  obtain ⟨v, _, rfl⟩ := List.mem_map.mp hx
  rfl

lemma wellFormed_applyOp (w : World) (op : WorldOp)
    (hw : w.wellFormed = true) : (w.applyOp op).wellFormed = true := by
  cases op with
  | opVoxel id =>
    simp only [World.applyOp, World.spawn_voxel, World.wellFormed] at hw ⊢
    rw [List.all_append, hw]
    rfl
  | opChunk vs =>
    simp only [World.applyOp, World.spawn_chunk]
    split
    · simpa [Option.getD] using hw
    · simp only [Option.getD_some, World.wellFormed] at hw ⊢
      rw [List.all_append, hw]
      rename_i hcond
      have hne : vs.isEmpty = false := by simpa using hcond
      simp [Entity.nonEmptyChunk, Entity.toTree, ETree.flatDepth, hne,
        map_voxel_chunkFree]

lemma wellFormed_applyOps (ops : List WorldOp) (w : World)
    (hw : w.wellFormed = true) : (w.applyOps ops).wellFormed = true := by
  induction ops generalizing w with
  | nil => simpa [World.applyOps] using hw
  | cons op ops ih =>
    simp only [World.applyOps, List.foldl_cons] at ih ⊢
    exact ih _ (wellFormed_applyOp w op hw)

/-- Claim C7: spawn_chunk rejects the empty sequence, every world
operation preserves well-formedness (all held chunks non-empty and flat,
containing only voxels and never another chunk), and every world reachable
from the empty world by spawn operations is well-formed. -/
theorem C7_chunk_invariant :
    (∀ w : World, w.spawn_chunk [] = none) ∧
    (∀ (w : World) (op : WorldOp), w.wellFormed = true →
      (w.applyOp op).wellFormed = true) ∧
    (∀ ops : List WorldOp, (World.empty.applyOps ops).wellFormed = true) := by
  refine ⟨fun w => rfl, fun w op hw => wellFormed_applyOp w op hw,
    fun ops => wellFormed_applyOps ops World.empty (by decide)⟩

theorem C7_chunk_invariant_witness :
    (World.empty.spawn_chunk [] = none) ∧
    ((World.empty.applyOp (WorldOp.opChunk [])).wellFormed = true) ∧
    ((World.empty.applyOps [WorldOp.opVoxel 7,
      WorldOp.opChunk [⟨1⟩, ⟨2⟩, ⟨3⟩]]).wellFormed = true) :=
  ⟨C7_chunk_invariant.1 World.empty,
   C7_chunk_invariant.2.1 World.empty (WorldOp.opChunk []) (by decide),
   C7_chunk_invariant.2.2 [WorldOp.opVoxel 7,
     WorldOp.opChunk [⟨1⟩, ⟨2⟩, ⟨3⟩]]⟩

/-- Claim C8: iter yields all stored entities in insertion order; in
particular from the empty world, spawn_voxel 7 then spawn_chunk [1,2,3]
makes iter yield exactly [Voxel 7, Chunk [Voxel 1, Voxel 2, Voxel 3]]. -/
theorem C8_iter_order :
    (∀ (w : World) (id : Nat),
      (w.spawn_voxel id).iter = w.iter ++ [Entity.voxel id]) ∧
    (∀ (w w2 : World) (vs : List Voxel), w.spawn_chunk vs = some w2 →
      w2.iter = w.iter ++ [Entity.chunk vs]) ∧
    (((World.empty.spawn_voxel 7).spawn_chunk
        [⟨1⟩, ⟨2⟩, ⟨3⟩]).map World.iter =
      some [Entity.voxel 7, Entity.chunk [⟨1⟩, ⟨2⟩, ⟨3⟩]]) := by
  refine ⟨fun w id => rfl, ?_, by decide⟩
  intro w w2 vs h
  simp only [World.spawn_chunk] at h
  split at h
  · exact absurd h (by simp)
  · cases h
    rfl

theorem C8_iter_order_witness :
    (World.mk [Entity.chunk [⟨1⟩]]).iter =
      World.empty.iter ++ [Entity.chunk [⟨1⟩]] :=
  C8_iter_order.2.1 World.empty (World.mk [Entity.chunk [⟨1⟩]]) [⟨1⟩]
    (by decide)

/-- Claim C4: resize with a zero dimension stores the size, performs no
surface reconfiguration, and never fails, leaving the surface configuration
untouched until a resize with both dimensions non-zero; resize with both
dimensions non-zero stores the size and reconfigures the surface to it. -/
theorem C4_resize_policy :
    (∀ (r : Renderer) (w h : Nat), ((r.resize w h).1).size = ⟨w, h⟩) ∧
    (∀ (r : Renderer) (w h : Nat), w = 0 ∨ h = 0 →
      (r.resize w h).2 = [Action.resizeCall w h] ∧
      ((r.resize w h).1).surfaceConfigured = r.surfaceConfigured) ∧
    (∀ (r : Renderer) (w h : Nat), w ≠ 0 → h ≠ 0 →
      ((r.resize w h).1).surfaceConfigured = some ⟨w, h⟩ ∧
      (r.resize w h).2 =
        [Action.resizeCall w h, Action.reconfigure w h]) := by
  refine ⟨resize_size, ?_, ?_⟩
  · intro r w h hz
    unfold Renderer.resize
    split
    · exact ⟨rfl, rfl⟩
    · rename_i hc
      exact absurd hz hc
  · intro r w h hw hh
    unfold Renderer.resize
    split
    · rename_i hc
      rcases hc with hc | hc
      · exact absurd hc hw
      · exact absurd hc hh
    · exact ⟨rfl, rfl⟩

theorem C4_resize_policy_witness :
    (((rW.resize 0 5).2 = [Action.resizeCall 0 5]) ∧
      ((rW.resize 0 5).1).surfaceConfigured = rW.surfaceConfigured) ∧
    ((((rW.resize 6 5).1).surfaceConfigured = some ⟨6, 5⟩) ∧
      (rW.resize 6 5).2 =
        [Action.resizeCall 6 5, Action.reconfigure 6 5]) :=
  ⟨C4_resize_policy.2.1 rW 0 5 (Or.inl rfl),
   C4_resize_policy.2.2 rW 6 5 (by decide) (by decide)⟩

/-- Claim C9: on window realization, cursor confinement is always
requested; whenever startup survives the cursor has been hidden; and if the
confinement request fails, startup aborts fatally. -/
theorem C9_cursor_policy :
    ∀ b : Bool,
      WinOp.cursorGrabConfined ∈ (resumed b).1 ∧
      ((resumed b).2 = true → WinOp.cursorVisible false ∈ (resumed b).1) ∧
      (b = false → (resumed b).2 = false) := by
  intro b
  cases b <;> decide

theorem C9_cursor_policy_witness :
    WinOp.cursorGrabConfined ∈ (resumed false).1 ∧
    (resumed false).2 = false :=
  ⟨(C9_cursor_policy false).1, (C9_cursor_policy false).2.2 rfl⟩

lemma runEvents_exiting (a : App) (evs : List EventIn)
    (h : a.exiting = true) : a.runEvents evs = (a, []) := by
  cases evs <;> simp [App.runEvents, h]

/-- Claim C1: while Active, a render reporting Lost or Outdated makes the
Application call resize with the Renderer's own currently stored drawable
size and continue running: it does not transition to Exiting and stays
Active, and the surviving Renderer still stores that size. -/
theorem C1_lost_outdated_recover :
    ∀ (a : App) (st : Renderer) (now : Nat) (rres : RenderResult),
      a.renderer = some st → a.exiting = false →
      rres = RenderResult.lost ∨ rres = RenderResult.outdated →
      ((a.window_event now rres WEvent.redrawRequested).1.exiting = false ∧
       (a.window_event now rres WEvent.redrawRequested).1.mode =
         Mode.active ∧
       Action.resizeCall st.size.width st.size.height ∈
         (a.window_event now rres WEvent.redrawRequested).2 ∧
       ∃ st2 : Renderer,
         (a.window_event now rres WEvent.redrawRequested).1.renderer =
           some st2 ∧ st2.size = st.size) := by
  intro a st now rres h he hr
  rcases hr with rfl | rfl <;>
  · refine ⟨?_, ?_, ?_, ?_⟩
    · simp only [App.window_event, h]
      exact he
    · simp only [App.window_event, h]
      simp [App.mode, he]
    · simp only [App.window_event, h, update_size]
      exact List.mem_cons_of_mem _ (resizeCall_mem _ _ _)
    · simp only [App.window_event, h, update_size]
      exact ⟨_, rfl, by rw [resize_size]⟩

/-- Witness for C1: a concrete Active app recovering from Lost. -/
theorem C1_lost_outdated_recover_witness :
    ((appW.window_event 5 RenderResult.lost
      WEvent.redrawRequested).1.exiting = false) ∧
    ((appW.window_event 5 RenderResult.lost
      WEvent.redrawRequested).1.mode = Mode.active) ∧
    (Action.resizeCall rW.size.width rW.size.height ∈
      (appW.window_event 5 RenderResult.lost WEvent.redrawRequested).2) ∧
    (∃ st2 : Renderer,
      (appW.window_event 5 RenderResult.lost
        WEvent.redrawRequested).1.renderer = some st2 ∧
      st2.size = rW.size) :=
  C1_lost_outdated_recover appW rW 5 RenderResult.lost rfl rfl (Or.inl rfl)

/-- Claim C2: a render reporting OutOfMemory transitions the Application to
Exiting, and the event loop then delivers no further events, so no render
call is ever issued after that transition. -/
theorem C2_oom_exits :
    ∀ (a : App) (st : Renderer) (now : Nat) (rest : List EventIn),
      a.renderer = some st →
      ((a.window_event now RenderResult.outOfMemory
        WEvent.redrawRequested).1.exiting = true ∧
       (a.window_event now RenderResult.outOfMemory
        WEvent.redrawRequested).1.mode = Mode.exiting ∧
       ((a.window_event now RenderResult.outOfMemory
        WEvent.redrawRequested).1.runEvents rest).2 = []) := by
  intro a st now rest h
  have h1 : (a.window_event now RenderResult.outOfMemory
      WEvent.redrawRequested).1.exiting = true := by
    simp [App.window_event, h]
  refine ⟨h1, ?_, ?_⟩
  · simp [App.mode, h1]
  · rw [runEvents_exiting _ rest h1]

/-- Witness for C2: a concrete OutOfMemory frame followed by a pending
redraw that is never delivered. -/
theorem C2_oom_exits_witness :
    ((appW.window_event 5 RenderResult.outOfMemory
      WEvent.redrawRequested).1.exiting = true) ∧
    ((appW.window_event 5 RenderResult.outOfMemory
      WEvent.redrawRequested).1.mode = Mode.exiting) ∧
    (((appW.window_event 5 RenderResult.outOfMemory
      WEvent.redrawRequested).1.runEvents
        [⟨6, RenderResult.ok, WEvent.redrawRequested⟩]).2 = []) :=
  C2_oom_exits appW rW 5 [⟨6, RenderResult.ok, WEvent.redrawRequested⟩] rfl

/-- Claim C3: a render reporting Timeout or an unclassified Other failure
leaves the Application in exactly the state a successful render would have
produced (same mode, same Renderer with the same stored size, same
timestamp), and the action trace holds only the render call and a warning:
no resize and no surface reconfiguration is triggered. -/
theorem C3_timeout_other_ignored :
    ∀ (a : App) (st : Renderer) (now : Nat) (rres : RenderResult),
      a.renderer = some st →
      rres = RenderResult.timeout ∨ rres = RenderResult.other →
      ((a.window_event now rres WEvent.redrawRequested).1 =
        (a.window_event now RenderResult.ok WEvent.redrawRequested).1 ∧
       (a.window_event now rres WEvent.redrawRequested).2 =
        [Action.renderCall, Action.warn] ∧
       (a.window_event now rres WEvent.redrawRequested).1.exiting =
        a.exiting ∧
       ∃ st2 : Renderer,
         (a.window_event now rres WEvent.redrawRequested).1.renderer =
           some st2 ∧ st2.size = st.size) := by
  intro a st now rres h hr
  rcases hr with rfl | rfl <;>
  · refine ⟨?_, ?_, ?_, ?_⟩
    · simp only [App.window_event, h]
    · simp only [App.window_event, h]
    · simp only [App.window_event, h]
    · simp only [App.window_event, h]
      exact ⟨_, rfl, update_size st _⟩

/-- Witness for C3: a concrete Timeout frame. -/
theorem C3_timeout_other_ignored_witness :
    ((appW.window_event 5 RenderResult.timeout WEvent.redrawRequested).1 =
      (appW.window_event 5 RenderResult.ok WEvent.redrawRequested).1) ∧
    ((appW.window_event 5 RenderResult.timeout WEvent.redrawRequested).2 =
      [Action.renderCall, Action.warn]) ∧
    ((appW.window_event 5 RenderResult.timeout
      WEvent.redrawRequested).1.exiting = appW.exiting) ∧
    (∃ st2 : Renderer,
      (appW.window_event 5 RenderResult.timeout
        WEvent.redrawRequested).1.renderer = some st2 ∧
      st2.size = rW.size) :=
  C3_timeout_other_ignored appW rW 5 RenderResult.timeout rfl (Or.inl rfl)

/-- Claim C5 counterexample: in the Uninitialized state (no Renderer,
App::new) a window-close request is dropped by the early return of
window_event, so the Application does not transition to Exiting — it is
left entirely unchanged. -/
theorem C5_close_uninitialized_cex :
    (App.new 0).mode = Mode.uninitialized ∧
    ((App.new 0).window_event 3 RenderResult.ok
      WEvent.closeRequested).1.mode ≠ Mode.exiting ∧
    ((App.new 0).window_event 3 RenderResult.ok WEvent.closeRequested).1 =
      App.new 0 := by
  decide

/-- Claim C5 as amended: while Active (a Renderer is present) a window-close
request transitions the Application to the terminal Exiting state; while
Uninitialized (no Renderer) a window-close request is a no-op. -/
theorem C5_close_amended :
    ∀ (a : App) (now : Nat) (rres : RenderResult),
      (∀ st : Renderer, a.renderer = some st →
        ((a.window_event now rres WEvent.closeRequested).1.exiting = true ∧
         (a.window_event now rres WEvent.closeRequested).1.mode =
           Mode.exiting)) ∧
      (a.renderer = none →
        a.window_event now rres WEvent.closeRequested = (a, [])) := by
  intro a now rres
  constructor
  · intro st h
    have h1 : (a.window_event now rres
        WEvent.closeRequested).1.exiting = true := by
      simp [App.window_event, h]
    exact ⟨h1, by simp [App.mode, h1]⟩
  · intro h
    simp [App.window_event, h]

/-- Witness for the amended C5: a concrete Active app exiting on close and a
concrete Uninitialized app ignoring close. -/
theorem C5_close_amended_witness :
    ((appW.window_event 1 RenderResult.ok
      WEvent.closeRequested).1.exiting = true) ∧
    ((App.new 0).window_event 1 RenderResult.ok WEvent.closeRequested =
      (App.new 0, [])) :=
  ⟨((C5_close_amended appW 1 RenderResult.ok).1 rW rfl).1,
   (C5_close_amended (App.new 0) 1 RenderResult.ok).2 rfl⟩

/-- Claim C10: on every redraw handled while a Renderer is present the
last-render timestamp is set to now regardless of the render outcome, and
the dt handed to update is now minus the previous timestamp; the timestamp
is initialized at App construction, and events received while no Renderer is
installed (window or device) leave the App untouched, so the first Active
frame's dt measures the time since construction. -/
theorem C10_timestamp :
    (∀ (a : App) (st : Renderer) (now : Nat) (rres : RenderResult),
      a.renderer = some st →
      ((a.window_event now rres WEvent.redrawRequested).1.last_render_time =
        now ∧
       ∃ st2 : Renderer,
         (a.window_event now rres WEvent.redrawRequested).1.renderer =
           some st2 ∧ st2.lastDt = now - a.last_render_time)) ∧
    (∀ t0 : Nat, (App.new t0).last_render_time = t0 ∧
      (App.new t0).renderer = none ∧
      (App.new t0).mode = Mode.uninitialized) ∧
    (∀ (a : App) (now : Nat) (rres : RenderResult) (ev : WEvent),
      a.renderer = none → a.window_event now rres ev = (a, [])) ∧
    (∀ (a : App) (dx dy : Int), a.renderer = none →
      a.device_event dx dy = a) := by
  refine ⟨?_, ?_, ?_, ?_⟩
  · intro a st now rres h
    cases rres <;>
    · refine ⟨?_, ?_⟩
      · simp only [App.window_event, h]
      · simp only [App.window_event, h]
        exact ⟨_, rfl, by simp [resize_lastDt, update_lastDt]⟩
  · intro t0
    exact ⟨rfl, rfl, rfl⟩
  · intro a now rres ev h
    simp [App.window_event, h]
  · intro a dx dy h
    simp [App.device_event, h]

/-- Witness for C10: a concrete Timeout frame still updates the timestamp,
and a concrete Uninitialized app ignores events. -/
theorem C10_timestamp_witness :
    ((appW.window_event 9 RenderResult.timeout
      WEvent.redrawRequested).1.last_render_time = 9) ∧
    (∃ st2 : Renderer,
      (appW.window_event 9 RenderResult.timeout
        WEvent.redrawRequested).1.renderer = some st2 ∧
      st2.lastDt = 9 - appW.last_render_time) ∧
    ((App.new 4).window_event 9 RenderResult.ok WEvent.redrawRequested =
      (App.new 4, [])) ∧
    ((App.new 4).device_event 1 2 = App.new 4) :=
  ⟨(C10_timestamp.1 appW rW 9 RenderResult.timeout rfl).1,
   (C10_timestamp.1 appW rW 9 RenderResult.timeout rfl).2,
   C10_timestamp.2.2.1 (App.new 4) 9 RenderResult.ok
     WEvent.redrawRequested rfl,
   C10_timestamp.2.2.2 (App.new 4) 1 2 rfl⟩

end Voxl
